import Mathlib

/-!
Shallow embedding of the webull client library (src/webull/webull.py,
src/webull/paper_webull.py, src/webull/endpoints.py).

Python dicts are modelled as insertion-ordered association lists: updating an
existing key keeps its position, a new key is appended, exactly as CPython
dicts behave.  The mutable attributes of the `Webull` object are an explicit
record threaded through each method.  HTTP traffic is modelled by passing the
vendor's parsed responses in as arguments and returning the list of requests
a method issues; fallible Python code (KeyError, TypeError, ValueError)
returns `Except`.  `float(...)` values are modelled as `Rat`; the CSV bar
fields are kept as the exact strings Python hands to `float`, since binary
floating point is out of scope.  The external `email_validator` library is
abstracted to its boolean verdict, and `urllib.parse.quote` percent-encoding
is elided (no claim concerns it).
-/

namespace Webull

/-- Lookup in an insertion-ordered association list (Python `d[k]` / `d.get(k)`). -/
def alGet {κ α : Type} [DecidableEq κ] (d : List (κ × α)) (k : κ) : Option α :=
  match d with
  | [] => none
  | (k', v) :: rest => if k' = k then some v else alGet rest k

/-- Update in an insertion-ordered association list (Python `d[k] = v`):
an existing key keeps its position, a new key is appended.  This is also
exactly what `df.loc[label] = row` does on the pandas frames built by
`get_bars`, whose labels are unique by construction. -/
def alSet {κ α : Type} [DecidableEq κ] (d : List (κ × α)) (k : κ) (v : α) :
    List (κ × α) :=
  match d with
  | [] => [(k, v)]
  | (k', v') :: rest =>
      if k' = k then (k', v) :: rest else (k', v') :: alSet rest k v

/-- Mutable attributes of the `Webull` client object (webull.py lines 26-54):
the `self._headers` dict plus the session bookkeeping fields. -/
structure ClientState where
  headers : List (String × String)
  accountId : String
  tradeToken : String
  accessToken : String
  refreshToken : String
  tokenExpire : String
  uuid : String
  did : String
  zoneVar : String
  deriving Repr, DecidableEq

/-- The session-credential fields of two client states agree (the headers
dict, which `build_req_headers` scribbles on, is not part of the session). -/
def sessionEq (a b : ClientState) : Prop :=
  a.accountId = b.accountId ∧ a.tradeToken = b.tradeToken ∧
  a.accessToken = b.accessToken ∧ a.refreshToken = b.refreshToken ∧
  a.tokenExpire = b.tokenExpire ∧ a.uuid = b.uuid

/-- The state `Webull.__init__` leaves the client in (webull.py lines 26-54);
`did` comes from `_get_did()` (a cached random uuid) and is a parameter. -/
def initState (did : String) : ClientState :=
  { headers :=
      [ ("User-Agent", "Mozilla/5.0 (Macintosh; Intel Mac OS X 10.15; rv:99.0) Gecko/20100101 Firefox/99.0")
      , ("Accept", "*/*")
      , ("Accept-Encoding", "gzip, deflate")
      , ("Content-Type", "application/json")
      , ("platform", "web")
      , ("app", "global")
      , ("appid", "webull-webapp")
      , ("ver", "3.39.18")
      , ("lzone", "dc_core_r001")
      , ("device-type", "Web")
      , ("did", did) ]
  , accountId := ""
  , tradeToken := ""
  , accessToken := ""
  , refreshToken := ""
  , tokenExpire := ""
  , uuid := ""
  , did := did
  , zoneVar := "dc_core_r001" }

/-- `Webull.build_req_headers` (webull.py lines 78-91).  The function writes
into `self._headers` itself (`headers = self._headers` aliases the dict), so
it both mutates the client state and returns that same dict; `now` stands for
`str(round(time.time() * 1000))`. -/
def build_req_headers (st : ClientState)
    (include_trade_token : Bool := false) (include_time : Bool := false)
    (include_zone_var : Bool := true) (now : String := "") :
    ClientState × List (String × String) :=
  let h := st.headers
  let h := alSet h "did" st.did
  let h := alSet h "access_token" st.accessToken
  let h := if include_trade_token then alSet h "t_token" st.tradeToken else h
  let h := if include_time then alSet h "t_time" now else h
  let h := if include_zone_var then alSet h "lzone" st.zoneVar else h
  ({ st with headers := h }, h)

/-- JSON-ish payload values appearing in the request bodies the client builds. -/
inductive JVal : Type
  | s (v : String)
  | i (v : Int)
  | q (v : Rat)
  | b (v : Bool)
  deriving Repr, DecidableEq

/-- A request body: a Python dict of payload values. -/
abbrev Payload := List (String × JVal)

/-- The HTTP requests the embedded methods can issue. -/
inductive Request : Type
  | securityQuestion (username : String) (accountType : Nat) (slt : Nat)
  | stockLookup (stock : String)
  | post (payload : Payload)
  deriving Repr, DecidableEq

/-- `Webull.get_account_type` (webull.py lines 1286-1293), with the external
`email_validator` call abstracted to its verdict `isEmail`. -/
def get_account_type (isEmail : Bool) : Nat :=
  if isEmail then 2 else 1

/-- `Webull.get_security` (webull.py lines 211-223).  `resp slt` is the parsed
JSON the vendor returns to the request whose final endpoint argument is `slt`
(0 on the first try, 1 on the fallback); the method re-issues the request with
flag 1 exactly when the first response is empty.  Returns the data together
with the requests issued. -/
def get_security (resp : Nat → List JVal) (username : String) (isEmail : Bool) :
    List JVal × List Request :=
  let at_ := get_account_type isEmail
  let d0 := resp 0
  if d0.length = 0 then
    (resp 1, [Request.securityQuestion username at_ 0, Request.securityQuestion username at_ 1])
  else
    (d0, [Request.securityQuestion username at_ 0])

/-- One element of the `data` list in the ticker-lookup response consumed by
`Webull.get_ticker`; a `none` field models an absent key. -/
structure TickerItem where
  symbol : Option String
  disSymbol : Option String
  tickerId : Int
  deriving Repr, DecidableEq

/-- The loop body of `Webull.get_ticker` (webull.py lines 418-424): scan the
items, and on the first whose `symbol` (or, failing that, `disSymbol`) equals
`stock` exactly, take its `tickerId` and break; `0` is both the initial value
and the no-match sentinel. -/
def findTickerId (stock : String) : List TickerItem → Int
  | [] => 0
  | item :: rest =>
      if item.symbol = some stock then item.tickerId
      else if item.disSymbol = some stock then item.tickerId
      else findTickerId stock rest

/-- An item matches the lookup in `Webull.get_ticker` when its `symbol` or its
`disSymbol` equals the requested symbol exactly. -/
def tickerMatches (stock : String) (item : TickerItem) : Bool :=
  item.symbol = some stock || item.disSymbol = some stock

/-- `Webull.get_ticker` (webull.py lines 407-431).  `resp` models
`response.json().get('data')`: `none` for a missing key, `some []` for an
empty list, both falsy in Python and hence both raising ValueError.  The
`isinstance(stock, str)` half of the guard is subsumed by `stock` being typed
as a string here; the empty string is the falsy case.  Returns the mutated
state (headers are rebuilt on line 412), the requests issued and the result. -/
def get_ticker (st : ClientState) (stock : String)
    (resp : Option (List TickerItem)) :
    ClientState × List Request × Except String Int :=
  let st1 := (build_req_headers st).1
  if stock = "" then
    (st1, [], .error "ValueError: Stock symbol is required")
  else
    match resp with
    | some (first :: rest) =>
        let tid := findTickerId stock (first :: rest)
        (st1, [Request.stockLookup stock],
          .ok (if tid = 0 then first.tickerId else tid))
    | _ =>
        (st1, [Request.stockLookup stock],
          .error "ValueError: TickerId could not be found for stock")

/-- The header-building call of `Webull.place_order` (webull.py line 474):
`include_trade_token=True, include_time=True`. -/
def place_order_headers (st : ClientState) (now : String) :
    ClientState × List (String × String) :=
  build_req_headers st true true true now

/-- The header-building call of `Webull.modify_order` (webull.py line 515):
`include_trade_token=True, include_time=True`. -/
def modify_order_headers (st : ClientState) (now : String) :
    ClientState × List (String × String) :=
  build_req_headers st true true true now

/-- The header-building call of `Webull.cancel_order` (webull.py line 555):
`include_trade_token=True, include_time=True`. -/
def cancel_order_headers (st : ClientState) (now : String) :
    ClientState × List (String × String) :=
  build_req_headers st true true true now

/-- The header-building call of `Webull.place_order_otoco` (webull.py line
567): `include_trade_token=False, include_time=True`. -/
def place_order_otoco_headers (st : ClientState) (now : String) :
    ClientState × List (String × String) :=
  build_req_headers st false true true now

/-- The header-building call of `Webull.modify_order_otoco` (webull.py line
614): `include_trade_token=False, include_time=True`. -/
def modify_order_otoco_headers (st : ClientState) (now : String) :
    ClientState × List (String × String) :=
  build_req_headers st false true true now

/-- The header-building call of `Webull.cancel_order_otoco` (webull.py line
638): `include_trade_token=True, include_time=True`. -/
def cancel_order_otoco_headers (st : ClientState) (now : String) :
    ClientState × List (String × String) :=
  build_req_headers st true true true now

/-- The header-building call of `Webull.place_order_crypto` (webull.py line
665): `include_trade_token=True, include_time=True`. -/
def place_order_crypto_headers (st : ClientState) (now : String) :
    ClientState × List (String × String) :=
  build_req_headers st true true true now

/-- The header-building call of `Webull.place_order_option` (webull.py line
763): `include_trade_token=True, include_time=True`. -/
def place_order_option_headers (st : ClientState) (now : String) :
    ClientState × List (String × String) :=
  build_req_headers st true true true now

/-- The header-building call of `Webull.modify_order_option` (webull.py line
792): `include_trade_token=True, include_time=True`. -/
def modify_order_option_headers (st : ClientState) (now : String) :
    ClientState × List (String × String) :=
  build_req_headers st true true true now

/-- The payload built by `Webull.place_order` (webull.py lines 475-498): the
base dict, then the orderType-conditional price fields; `float(None)` for a
missing `stpPrice` on the STP paths raises TypeError. -/
def place_order_data (tId : Int) (price : Rat) (action : String)
    (orderType : String) (enforce : String) (quant : Int)
    (outsideRegularTradingHour : Bool) (stpPrice : Option Rat)
    (trial_value : Rat) (trial_type : String) (serialId : String) :
    Except String Payload :=
  let data : Payload :=
    [ ("action", .s action)
    , ("comboType", .s "NORMAL")
    , ("orderType", .s orderType)
    , ("outsideRegularTradingHour", .b outsideRegularTradingHour)
    , ("quantity", .i quant)
    , ("serialId", .s serialId)
    , ("tickerId", .i tId)
    , ("timeInForce", .s enforce) ]
  if orderType = "MKT" then
    .ok (alSet data "outsideRegularTradingHour" (.b false))
  else if orderType = "LMT" then
    .ok (alSet data "lmtPrice" (.q price))
  else if orderType = "STP" then
    match stpPrice with
    | some sp => .ok (alSet data "auxPrice" (.q sp))
    | none => .error "TypeError: float() argument must not be None"
  else if orderType = "STP LMT" then
    match stpPrice with
    | some sp => .ok (alSet (alSet data "lmtPrice" (.q price)) "auxPrice" (.q sp))
    | none => .error "TypeError: float() argument must not be None"
  else if orderType = "STP TRAIL" then
    .ok (alSet (alSet data "trailingStopStep" (.q trial_value))
          "trailingType" (.s trial_type))
  else
    .ok data

/-- `Webull.place_order` (webull.py lines 454-501): resolve the ticker id
(possibly one lookup request), build headers with the trade token, build the
conditional payload and post it.  `tickerResp` is the lookup response used
when `stock` has to be resolved.  The vendor's reply to the POST is opaque;
the `.ok` value is the payload the method posts. -/
def place_order (st : ClientState) (stock : Option String := none)
    (tId : Option Int := none) (price : Rat := 0) (action : String := "BUY")
    (orderType : String := "LMT") (enforce : String := "GTC")
    (quant : Int := 0) (outsideRegularTradingHour : Bool := true)
    (stpPrice : Option Rat := none) (trial_value : Rat := 0)
    (trial_type : String := "DOLLAR")
    (tickerResp : Option (List TickerItem) := none) (now : String := "")
    (serialId : String := "") :
    ClientState × List Request × Except String Payload :=
  let resolved : ClientState × List Request × Except String Int :=
    match tId with
    | some t => (st, [], .ok t)
    | none =>
        match stock with
        | some s => get_ticker st s tickerResp
        | none => (st, [], .error "ValueError: Must provide a stock symbol or a stock id")
  match resolved with
  | (st1, reqs, .error e) => (st1, reqs, .error e)
  | (st1, reqs, .ok t) =>
      let st2 := (place_order_headers st1 now).1
      match place_order_data t price action orderType enforce quant
          outsideRegularTradingHour stpPrice trial_value trial_type serialId with
      | .ok data => (st2, reqs ++ [Request.post data], .ok data)
      | .error e => (st2, reqs, .error e)

/-- The order dict handed to `Webull.modify_order`; a `none` field models an
absent key (`tickerId` stands for `order['ticker']['tickerId']`). -/
structure PyOrder where
  action : Option String
  lmtPrice : Option Rat
  orderType : Option String
  outsideRegularTradingHour : Option Bool
  timeInForce : Option String
  quantity : Option Int
  tickerId : Option Int
  orderId : Option Int
  deriving Repr, DecidableEq

/-- An order dict with no keys at all: the other falsy value besides `None`
for the `not order` test in `Webull.modify_order`. -/
def PyOrder.isEmpty (o : PyOrder) : Bool :=
  o.action.isNone && o.lmtPrice.isNone && o.orderType.isNone &&
  o.outsideRegularTradingHour.isNone && o.timeInForce.isNone &&
  o.quantity.isNone && o.tickerId.isNone && o.orderId.isNone

/-- Python truthiness of the `order` argument (`not order`): `None` and the
empty dict are falsy. -/
def orderFalsy (order : Option PyOrder) : Bool :=
  match order with
  | none => true
  | some o => o.isEmpty

/-- Subscripting `order[key]` when `order` may be `None`: `None` raises
TypeError, a missing key raises KeyError. -/
def oget {α : Type} (order : Option PyOrder) (field : PyOrder → Option α)
    (key : String) : Except String α :=
  match order with
  | none => .error "TypeError: NoneType object is not subscriptable"
  | some o =>
      match field o with
      | some v => .ok v
      | none => .error ("KeyError: " ++ key)

/-- `Webull.modify_order` (webull.py lines 503-549): the order/order_id
validation, the header build, the six `x or order[...]` fallbacks (Python
truthiness: `None`, the empty string, and 0 are falsy; the
`outsideRegularTradingHour` fallback is a `type(...) == bool` test), ticker
resolution, the payload, and the MKT override.  The `.ok` value is the
payload posted. -/
def modify_order (st : ClientState) (order : Option PyOrder := none)
    (order_id : Int := 0) (stock : Option String := none)
    (tId : Option Int := none) (price : Rat := 0)
    (action : Option String := none) (orderType : Option String := none)
    (enforce : Option String := none) (quant : Int := 0)
    (outsideRegularTradingHour : Option Bool := none)
    (tickerResp : Option (List TickerItem) := none) (now : String := "")
    (serialId : String := "") :
    ClientState × List Request × Except String Payload :=
  if orderFalsy order = true ∧ order_id = 0 then
    (st, [], .error "ValueError: Must provide an order or order_id")
  else
    let st1 := (modify_order_headers st now).1
    let fields : Except String (String × Rat × String × Bool × String × Int) := do
      let mAction ← match action with
        | some a => if a = "" then oget order PyOrder.action "action" else pure a
        | none => oget order PyOrder.action "action"
      let mLmtPrice ← if price = 0 then oget order PyOrder.lmtPrice "lmtPrice" else pure price
      let mOrderType ← match orderType with
        | some a => if a = "" then oget order PyOrder.orderType "orderType" else pure a
        | none => oget order PyOrder.orderType "orderType"
      let mOutside ← match outsideRegularTradingHour with
        | some b => pure b
        | none => oget order PyOrder.outsideRegularTradingHour "outsideRegularTradingHour"
      let mEnforce ← match enforce with
        | some a => if a = "" then oget order PyOrder.timeInForce "timeInForce" else pure a
        | none => oget order PyOrder.timeInForce "timeInForce"
      let mQuant ← if quant = 0 then oget order PyOrder.quantity "quantity" else pure quant
      pure (mAction, mLmtPrice, mOrderType, mOutside, mEnforce, mQuant)
    match fields with
    | .error e => (st1, [], .error e)
    | .ok (mAction, mLmtPrice, mOrderType, mOutside, mEnforce, mQuant) =>
        let resolved : ClientState × List Request × Except String Int :=
          match tId with
          | some t => (st1, [], .ok t)
          | none =>
              match stock with
              | some s => get_ticker st1 s tickerResp
              | none => (st1, [], oget order PyOrder.tickerId "ticker")
        match resolved with
        | (st2, reqs, .error e) => (st2, reqs, .error e)
        | (st2, reqs, .ok t) =>
            match (if order_id = 0 then oget order PyOrder.orderId "orderId"
                   else .ok order_id : Except String Int) with
            | .error e => (st2, reqs, .error e)
            | .ok oid =>
                let data : Payload :=
                  [ ("action", .s mAction)
                  , ("lmtPrice", .q mLmtPrice)
                  , ("orderType", .s mOrderType)
                  , ("quantity", .i mQuant)
                  , ("comboType", .s "NORMAL")
                  , ("outsideRegularTradingHour", .b mOutside)
                  , ("serialId", .s serialId)
                  , ("orderId", .i oid)
                  , ("tickerId", .i t)
                  , ("timeInForce", .s mEnforce) ]
                let data :=
                  if alGet data "orderType" = some (.s "MKT") then
                    alSet data "outsideRegularTradingHour" (.b false)
                  else data
                (st2, reqs ++ [Request.post data], .ok data)

/-- `Webull.refresh_login` (webull.py lines 282-298): headers are rebuilt
(mutating the shared dict), then the session token fields are overwritten
exactly when the response has a non-empty `accessToken` and its
`refreshToken` and `tokenExpireTime` are present and non-empty, the check
short-circuiting left to right, so a missing `refreshToken` or
`tokenExpireTime` after a non-empty `accessToken` raises KeyError.  The
update also writes `result['uuid']` before the dict is returned.  Writing the
token file (`save_token=True`) is file IO and elided. -/
def refresh_login (st : ClientState) (result : List (String × String)) :
    ClientState × Except String (List (String × String)) :=
  let st0 := (build_req_headers st).1
  match alGet result "accessToken" with
  | none => (st0, .ok result)
  | some a =>
      if a = "" then (st0, .ok result)
      else
        match alGet result "refreshToken" with
        | none => (st0, .error "KeyError: refreshToken")
        | some rt =>
            if rt = "" then (st0, .ok result)
            else
              match alGet result "tokenExpireTime" with
              | none => (st0, .error "KeyError: tokenExpireTime")
              | some te =>
                  if te = "" then (st0, .ok result)
                  else
                    ({ st0 with accessToken := a, refreshToken := rt, tokenExpire := te },
                     .ok (alSet result "uuid" st.uuid))

/-- The rules dict built by `Webull.run_screener` (webull.py lines 958-975).
Each rule argument stands for `str(x)` of the numeric parameter; a rule is
added only when both of its bounds are not None, and the source pastes the
`*_lte` argument after `gte=` and the `*_gte` argument after `lte=`. -/
def run_screener_rules (price_lte price_gte vol_lte vol_gte
    pct_chg_lte pct_chg_gte : Option String) : List (String × String) :=
  let rules : List (String × String) := []
  let rules := alSet rules "wlas.screener.rule.region" "securities.region.name.6"
  let rules :=
    match price_lte, price_gte with
    | some lte, some gte =>
        alSet rules "wlas.screener.rule.price" ("gte=" ++ lte ++ "&lte=" ++ gte)
    | _, _ => rules
  let rules :=
    match vol_lte, vol_gte with
    | some lte, some gte =>
        alSet rules "wlas.screener.rule.volume" ("gte=" ++ lte ++ "&lte=" ++ gte)
    | _, _ => rules
  let rules :=
    match pct_chg_lte, pct_chg_gte with
    | some lte, some gte =>
        alSet rules "wlas.screener.rule.changeRatio" ("gte=" ++ lte ++ "&lte=" ++ gte)
    | _, _ => rules
  rules

/-- One OHLCV record built by `Webull.get_bars` (webull.py lines 1110-1117).
The fields hold the exact strings Python hands to `float(...)`, after the
`'null'`-to-`'0'` replacement; binary floats themselves are out of scope. -/
structure Bar where
  openF : String
  closeF : String
  high : String
  low : String
  volume : String
  vwap : String
  deriving Repr, DecidableEq

/-- Splitting a character list at commas; like Python `str.split(',')`, an
empty input yields one empty field and separators are never collapsed. -/
def splitCommaAux : List Char → List (List Char)
  | [] => [[]]
  | c :: rest =>
      if c = ',' then [] :: splitCommaAux rest
      else
        match splitCommaAux rest with
        | [] => [[c]]
        | h :: t => (c :: h) :: t

/-- Python `row.split(',')` (webull.py line 1108). -/
def splitComma (s : String) : List String :=
  (splitCommaAux s.data).map String.mk

/-- Accumulate decimal digits; a non-digit character fails, like `int(...)`. -/
def digitsAux : List Char → Nat → Option Nat
  | [], acc => some acc
  | c :: rest, acc =>
      if c.isDigit then digitsAux rest (acc * 10 + (c.toNat - 48)) else none

/-- Python `int(s)` on a decimal string: an optional sign followed by at
least one digit; anything else raises ValueError (`none`).  (Python also
strips surrounding whitespace, which never occurs in the vendor's CSV rows
and is not modelled.) -/
def parsePyInt (s : String) : Option Int :=
  match s.data with
  | [] => none
  | '-' :: rest =>
      match rest with
      | [] => none
      | _ => (digitsAux rest 0).map (fun n => -(n : Int))
  | '+' :: rest =>
      match rest with
      | [] => none
      | _ => (digitsAux rest 0).map (fun n => (n : Int))
  | l => (digitsAux l 0).map (fun n => (n : Int))

/-- One loop iteration of `Webull.get_bars` (webull.py lines 1107-1119): split
the CSV row on commas, replace literal `null` fields with `0`, read the
timestamp from column 0 (`int(row[0])`, modelled by `parsePyInt`), open from
column 1, close from column 2, high from column 3, low from column 4, volume
from column 6 and vwap from column 7.  Rows with fewer than 8 columns raise
IndexError, a non-integer timestamp raises ValueError: both are `none`. -/
def parseBarRow (rowStr : String) : Option (Int × Bar) :=
  let row := (splitComma rowStr).map (fun v => if v = "null" then "0" else v)
  if h7 : 7 < row.length then
    match parsePyInt row[0] with
    | some ts =>
        some (ts, { openF := row[1], closeF := row[2], high := row[3],
                    low := row[4], volume := row[6], vwap := row[7] })
    | none => none
  else none

/-- The frame built by `Webull.get_bars` (webull.py lines 1102-1120): rows are
inserted with `df.loc[timestamp] = record` — an existing timestamp label is
overwritten in place, a new one is appended — and the frame is returned
reversed (`df.iloc[::-1]`).  A row the loop fails on makes the whole call
raise (`none`). -/
def get_bars_frame (rows : List String) : Option (List (Int × Bar)) :=
  (rows.foldlM
    (fun frame r => (parseBarRow r).map (fun kb => alSet frame kb.1 kb.2))
    ([] : List (Int × Bar))).map List.reverse

/-- `endpoints.orders` (endpoints.py lines 132-133): the history-orders URL
prefix the base client requests; `Webull.get_history_orders` appends
`str(status)` to it. -/
def orders_url (account_id : String) (page_size : Nat) : String :=
  "https://ustrade.webullbroker.com/api/trade/v2/option/list?secAccountId="
    ++ account_id ++ "&startTime=1970-0-1&dateType=ORDER&pageSize="
    ++ toString page_size ++ "&status="

/-- `endpoints.paper_orders` (endpoints.py lines 138-139): the sandbox
history-orders URL prefix; `PaperWebull.get_history_orders` appends
`str(status)` to it. -/
def paper_orders_url (paper_account_id : String) (page_size : Nat) : String :=
  "https://act.webullbroker.com/webull-paper-center/api/paper/1/acc/"
    ++ paper_account_id ++ "/order?&startTime=1970-0-1&dateType=ORDER&pageSize="
    ++ toString page_size ++ "&status="

/-- The URL `Webull.get_history_orders` requests (webull.py lines 378-385);
the `status` parameter defaults to `'All'`. -/
def get_history_orders_url (st : ClientState) (status : String := "All")
    (count : Nat := 20) : String :=
  orders_url st.accountId count ++ status

/-- The URL `PaperWebull.get_history_orders` requests (paper_webull.py lines
37-40); the `status` parameter defaults to `'Cancelled'`. -/
def paper_get_history_orders_url (st : ClientState)
    (status : String := "Cancelled") (count : Nat := 20) : String :=
  paper_orders_url st.accountId count ++ status

/-- One element of the `positions` list in the account response; `info`
stands for the remaining vendor fields, which are passed through opaquely. -/
structure PositionItem where
  tickerSymbol : String
  info : String
  deriving Repr, DecidableEq

/-- `Webull.get_positions` (webull.py lines 344-349): returns the `positions`
list of the account response unchanged. -/
def get_positions (positions : List PositionItem) : List PositionItem :=
  positions

/-- `PaperWebull.get_positions` (paper_webull.py lines 42-49): builds a dict
keyed by `item['ticker']['symbol']` from the `positions` list of the paper
account response. -/
def paper_get_positions (positions : List PositionItem) :
    List (String × PositionItem) :=
  positions.foldl (fun acc item => alSet acc item.tickerSymbol item) []

end Webull

namespace Webull

theorem alGet_alSet_self {κ α : Type} [DecidableEq κ]
    (d : List (κ × α)) (k : κ) (v : α) : alGet (alSet d k v) k = some v := by
  induction d with
  | nil => simp [alGet, alSet]
  | cons h t ih =>
      obtain ⟨k', v'⟩ := h
      by_cases hk : k' = k
      · simp [alGet, alSet, hk]
      · simp [alGet, alSet, hk, ih]

theorem alGet_alSet_ne {κ α : Type} [DecidableEq κ]
    (d : List (κ × α)) (k k' : κ) (v : α) (hne : k' ≠ k) :
    alGet (alSet d k' v) k = alGet d k := by
  induction d with
  | nil => simp [alGet, alSet, hne]
  | cons h t ih =>
      obtain ⟨k0, v0⟩ := h
      by_cases hk : k0 = k'
      · subst hk
        simp [alGet, alSet, hne]
      · simp [alGet, alSet, hk, ih]

theorem alSet_of_absent {κ α : Type} [DecidableEq κ]
    (d : List (κ × α)) (k : κ) (v : α) (h : alGet d k = none) :
    alSet d k v = d ++ [(k, v)] := by
  induction d with
  | nil => simp [alSet]
  | cons hd t ih =>
      obtain ⟨k0, v0⟩ := hd
      by_cases hk : k0 = k
      · simp [alGet, hk] at h
      · simp [alGet, hk] at h
        simp [alSet, hk, ih h]

theorem build_req_headers_session (st : ClientState) (a b c : Bool)
    (now : String) : sessionEq (build_req_headers st a b c now).1 st :=
  ⟨rfl, rfl, rfl, rfl, rfl, rfl⟩

theorem build_true_t_token (st : ClientState) (it iz : Bool) (now : String) :
    alGet (build_req_headers st true it iz now).2 "t_token" = some st.tradeToken := by
  simp only [build_req_headers]
  cases it <;> cases iz <;>
    simp [alGet_alSet_ne, alGet_alSet_self]

/-- Claim C9: `build_req_headers` returns the client's single shared header
dict mutated in place, so after one call with `include_trade_token=True`,
every later call — here one with `include_trade_token=False` and arbitrary
other options — still yields headers carrying the `t_token` entry; the
per-call options never remove keys added by earlier calls. -/
theorem build_req_headers_t_token_persists
    (st : ClientState) (it1 iz1 it2 iz2 : Bool) (now1 now2 : String) :
    alGet (build_req_headers
        (build_req_headers st true it1 iz1 now1).1 false it2 iz2 now2).2
      "t_token" = some st.tradeToken := by
  simp only [build_req_headers]
  have base :
      alGet (alSet (alSet (alSet st.headers "did" st.did)
        "access_token" st.accessToken) "t_token" st.tradeToken) "t_token"
        = some st.tradeToken := alGet_alSet_self _ _ _
  cases it1 <;> cases iz1 <;> cases it2 <;> cases iz2 <;>
    simp [alGet_alSet_ne, base]

/-- Claim C1 (amended): the order-affecting methods place_order,
modify_order, cancel_order, cancel_order_otoco, place_order_crypto,
place_order_option and modify_order_option all build their request headers
with `include_trade_token=True`, so the headers they send carry the trade
token; place_order_otoco and modify_order_otoco are the two exceptions. -/
theorem order_methods_include_trade_token (st : ClientState) (now : String) :
    alGet (place_order_headers st now).2 "t_token" = some st.tradeToken ∧
    alGet (modify_order_headers st now).2 "t_token" = some st.tradeToken ∧
    alGet (cancel_order_headers st now).2 "t_token" = some st.tradeToken ∧
    alGet (cancel_order_otoco_headers st now).2 "t_token" = some st.tradeToken ∧
    alGet (place_order_crypto_headers st now).2 "t_token" = some st.tradeToken ∧
    alGet (place_order_option_headers st now).2 "t_token" = some st.tradeToken ∧
    alGet (modify_order_option_headers st now).2 "t_token" = some st.tradeToken :=
  ⟨build_true_t_token st true true now, build_true_t_token st true true now,
   build_true_t_token st true true now, build_true_t_token st true true now,
   build_true_t_token st true true now, build_true_t_token st true true now,
   build_true_t_token st true true now⟩

/-- Claim C1 counterexample: on a freshly constructed client,
place_order_otoco and modify_order_otoco build their headers with
`include_trade_token=False` (webull.py lines 567 and 614), so the headers
sent to the vendor contain no `t_token` entry at all, refuting the claim
that every order-affecting method sends the trade token. -/
theorem otoco_methods_missing_trade_token :
    alGet (place_order_otoco_headers (initState "d") "1700000000000").2
      "t_token" = none ∧
    alGet (modify_order_otoco_headers (initState "d") "1700000000000").2
      "t_token" = none := by
  exact ⟨rfl, rfl⟩

/-- Claim C2 (amended): a single public-method invocation is not always one
HTTP call: `get_security` issues exactly two requests — the second with the
alternate endpoint flag — precisely when its first response is empty, and
exactly one otherwise; it never issues more than two (no retry loop). -/
theorem get_security_request_count (resp : Nat → List JVal)
    (username : String) (isEmail : Bool) :
    ((get_security resp username isEmail).2.length
        = if (resp 0).length = 0 then 2 else 1) ∧
    (get_security resp username isEmail).2.length ≤ 2 := by
  unfold get_security
  by_cases h : (resp 0).length = 0 <;> simp [h]

/-- Claim C2 counterexample: one call to `get_security` whose first response
is empty issues two HTTP requests (webull.py lines 217-221), refuting the
claim that no single method call ever issues a second request. -/
theorem get_security_issues_two_requests :
    (get_security (fun _ => ([] : List JVal)) "user" true).2
      = [Request.securityQuestion "user" 2 0,
         Request.securityQuestion "user" 2 1] := by
  rfl

/-- Claim C3: for every `run_screener` call providing both a lower and an
upper bound for a rule, the rule string places the `*_lte` argument after
`gte=` and the `*_gte` argument after `lte=` — the two bounds are swapped
relative to their parameter names (webull.py lines 965-975). -/
theorem run_screener_bounds_swapped (pl pg vl vg cl cg : Option String) :
    (∀ lte gte, pl = some lte → pg = some gte →
      alGet (run_screener_rules pl pg vl vg cl cg) "wlas.screener.rule.price"
        = some ("gte=" ++ lte ++ "&lte=" ++ gte)) ∧
    (∀ lte gte, vl = some lte → vg = some gte →
      alGet (run_screener_rules pl pg vl vg cl cg) "wlas.screener.rule.volume"
        = some ("gte=" ++ lte ++ "&lte=" ++ gte)) ∧
    (∀ lte gte, cl = some lte → cg = some gte →
      alGet (run_screener_rules pl pg vl vg cl cg)
          "wlas.screener.rule.changeRatio"
        = some ("gte=" ++ lte ++ "&lte=" ++ gte)) := by
  refine ⟨?_, ?_, ?_⟩
  · intro lte gte h1 h2
    subst h1; subst h2
    unfold run_screener_rules
    cases vl <;> cases vg <;> cases cl <;> cases cg <;>
      simp [alGet_alSet_ne, alGet_alSet_self]
  · intro lte gte h1 h2
    subst h1; subst h2
    unfold run_screener_rules
    cases pl <;> cases pg <;> cases cl <;> cases cg <;>
      simp [alGet_alSet_ne, alGet_alSet_self]
  · intro lte gte h1 h2
    subst h1; subst h2
    unfold run_screener_rules
    cases pl <;> cases pg <;> cases vl <;> cases vg <;>
      simp [alGet_alSet_ne, alGet_alSet_self]

/-- Witness for claim C3 at a concrete call: price_lte = 0.1 and
price_gte = 5 produce the rule string 'gte=0.1&lte=5'. -/
theorem run_screener_bounds_swapped_witness :
    alGet (run_screener_rules (some "0.1") (some "5") none none none none)
      "wlas.screener.rule.price" = some "gte=0.1&lte=5" := by
  have h := run_screener_bounds_swapped (some "0.1") (some "5")
    none none none none
  exact h.1 "0.1" "5" rfl rfl

end Webull

namespace Webull

theorem findTickerId_eq_find (stock : String) (l : List TickerItem) :
    findTickerId stock l
      = ((l.find? (tickerMatches stock)).map TickerItem.tickerId).getD 0 := by
  induction l with
  | nil => simp [findTickerId]
  | cons item rest ih =>
      by_cases h1 : item.symbol = some stock
      · simp [findTickerId, h1, tickerMatches]
      · by_cases h2 : item.disSymbol = some stock
        · simp [findTickerId, h1, h2, tickerMatches]
        · simp [findTickerId, h1, h2, tickerMatches, ih]

/-- Claim C4 (amended): for a non-empty symbol and a response whose `data`
list is non-empty, `get_ticker` returns the tickerId of the first item whose
`symbol` or `disSymbol` equals the symbol exactly — provided that tickerId is
nonzero; a matching item whose tickerId is 0 is indistinguishable from the
no-match sentinel, so in that case, as when no item matches, the first item's
tickerId is returned instead.  It raises ValueError exactly when the symbol
is empty (or not a string) or the response's `data` is missing or empty. -/
theorem get_ticker_resolution (st : ClientState) (stock : String)
    (resp : Option (List TickerItem)) :
    (∀ first rest it, resp = some (first :: rest) → stock ≠ "" →
        (first :: rest).find? (tickerMatches stock) = some it →
        it.tickerId ≠ 0 →
        (get_ticker st stock resp).2.2 = .ok it.tickerId) ∧
    (∀ first rest, resp = some (first :: rest) → stock ≠ "" →
        (first :: rest).find? (tickerMatches stock) = none →
        (get_ticker st stock resp).2.2 = .ok first.tickerId) ∧
    (∀ first rest it, resp = some (first :: rest) → stock ≠ "" →
        (first :: rest).find? (tickerMatches stock) = some it →
        it.tickerId = 0 →
        (get_ticker st stock resp).2.2 = .ok first.tickerId) ∧
    ((∃ e, (get_ticker st stock resp).2.2 = .error e) ↔
        stock = "" ∨ resp = none ∨ resp = some []) := by
  refine ⟨?_, ?_, ?_, ?_⟩
  · intro first rest it hresp hs hfind hid
    subst hresp
    simp [get_ticker, hs, findTickerId_eq_find, hfind, hid]
  · intro first rest hresp hs hfind
    subst hresp
    simp [get_ticker, hs, findTickerId_eq_find, hfind]
  · intro first rest it hresp hs hfind hid
    subst hresp
    simp [get_ticker, hs, findTickerId_eq_find, hfind, hid]
  · by_cases hs : stock = ""
    · simp [get_ticker, hs]
    · match resp with
      | none => simp [get_ticker, hs]
      | some [] => simp [get_ticker, hs]
      | some (first :: rest) => simp [get_ticker, hs]

/-- Witness for claim C4 at a concrete input: a single-item response whose
symbol matches exactly and whose tickerId is 913256135 resolves to that id. -/
theorem get_ticker_resolution_witness :
    (get_ticker (initState "d") "AAPL"
        (some [⟨some "AAPL", none, 913256135⟩])).2.2 = .ok 913256135 := by
  have h := (get_ticker_resolution (initState "d") "AAPL"
      (some [⟨some "AAPL", none, 913256135⟩])).1
  exact h ⟨some "AAPL", none, 913256135⟩ [] ⟨some "AAPL", none, 913256135⟩
    rfl (by decide) rfl (by decide)

/-- Claim C4 counterexample: with data `[{symbol B, id 7}, {symbol A, id 0}]`
and stock `A`, the second item matches exactly, so the claim requires its
tickerId 0 to be returned; but 0 is also the loop's no-match sentinel
(webull.py lines 413, 425-426), so the code falls back to the first item and
returns 7. -/
theorem get_ticker_zero_id_fallback :
    (get_ticker (initState "d") "A"
        (some [⟨some "B", none, 7⟩, ⟨some "A", none, 0⟩])).2.2 = .ok 7 ∧
    tickerMatches "A" ⟨some "A", none, 0⟩ = true ∧
    tickerMatches "A" ⟨some "B", none, 7⟩ = false ∧
    ((7 : Int) ≠ 0) := by
  refine ⟨rfl, by decide, by decide, by decide⟩

/-- Claim C5 (amended): `refresh_login` overwrites the access-token,
refresh-token and token-expiry fields, all together, exactly when the
response carries a non-empty `accessToken` and `refreshToken` and
`tokenExpireTime` keys with non-empty values; when one of those two keys is
absent while `accessToken` is present and non-empty, the left-to-right check
raises KeyError (session fields untouched, nothing returned); in every other
case the session fields are untouched and the parsed response is returned
unchanged.  In the update case the returned response additionally gets a
`uuid` entry. -/
theorem refresh_login_update_behavior (st : ClientState)
    (r : List (String × String)) :
    (∀ a rt te, alGet r "accessToken" = some a → a ≠ "" →
        alGet r "refreshToken" = some rt → rt ≠ "" →
        alGet r "tokenExpireTime" = some te → te ≠ "" →
        refresh_login st r =
          ({ (build_req_headers st).1 with
              accessToken := a, refreshToken := rt, tokenExpire := te },
           .ok (alSet r "uuid" st.uuid))) ∧
    (∀ a, alGet r "accessToken" = some a → a ≠ "" →
        alGet r "refreshToken" = none →
        (refresh_login st r).2 = .error "KeyError: refreshToken" ∧
        sessionEq (refresh_login st r).1 st) ∧
    (∀ a rt, alGet r "accessToken" = some a → a ≠ "" →
        alGet r "refreshToken" = some rt → rt ≠ "" →
        alGet r "tokenExpireTime" = none →
        (refresh_login st r).2 = .error "KeyError: tokenExpireTime" ∧
        sessionEq (refresh_login st r).1 st) ∧
    (alGet r "accessToken" = none →
        refresh_login st r = ((build_req_headers st).1, .ok r)) ∧
    (alGet r "accessToken" = some "" →
        refresh_login st r = ((build_req_headers st).1, .ok r)) ∧
    (∀ a, alGet r "accessToken" = some a → a ≠ "" →
        alGet r "refreshToken" = some "" →
        refresh_login st r = ((build_req_headers st).1, .ok r)) ∧
    (∀ a rt, alGet r "accessToken" = some a → a ≠ "" →
        alGet r "refreshToken" = some rt → rt ≠ "" →
        alGet r "tokenExpireTime" = some "" →
        refresh_login st r = ((build_req_headers st).1, .ok r)) := by
  refine ⟨?_, ?_, ?_, ?_, ?_, ?_, ?_⟩
  · intro a rt te ha hane hrt hrtne hte htene
    simp [refresh_login, ha, hane, hrt, hrtne, hte, htene]
  · intro a ha hane hrt
    constructor
    · simp [refresh_login, ha, hane, hrt]
    · simp [refresh_login, ha, hane, hrt, sessionEq, build_req_headers]
  · intro a rt ha hane hrt hrtne hte
    constructor
    · simp [refresh_login, ha, hane, hrt, hrtne, hte]
    · simp [refresh_login, ha, hane, hrt, hrtne, hte, sessionEq,
        build_req_headers]
  · intro ha
    simp [refresh_login, ha]
  · intro ha
    simp [refresh_login, ha]
  · intro a ha hane hrt
    simp [refresh_login, ha, hane, hrt]
  · intro a rt ha hane hrt hrtne hte
    simp [refresh_login, ha, hane, hrt, hrtne, hte]

/-- Witness for claim C5 at a concrete response: all three token values
present and non-empty, so the access token field is overwritten. -/
theorem refresh_login_update_witness :
    (refresh_login (initState "d")
        [("accessToken", "a1"), ("refreshToken", "r1"),
         ("tokenExpireTime", "t1")]).1.accessToken = "a1" := by
  have h := (refresh_login_update_behavior (initState "d")
      [("accessToken", "a1"), ("refreshToken", "r1"),
       ("tokenExpireTime", "t1")]).1
  rw [h "a1" "r1" "t1" rfl (by decide) rfl (by decide) rfl (by decide)]

/-- Claim C5 counterexample: a response with a non-empty `accessToken` but no
`refreshToken` key makes `refresh_login` raise KeyError on line 291 of
webull.py instead of returning the parsed response, refuting the claim that
the response is returned for every non-updating response. -/
theorem refresh_login_keyerror_counterexample :
    (refresh_login (initState "d") [("accessToken", "tok")]).2
      = .error "KeyError: refreshToken" := by
  rfl

end Webull

namespace Webull

theorem alGet_append_of_none {κ α : Type} [DecidableEq κ]
    (d e : List (κ × α)) (k : κ) (h : alGet d k = none) :
    alGet (d ++ e) k = alGet e k := by
  induction d with
  | nil => simp
  | cons hd t ih =>
      obtain ⟨k0, v0⟩ := hd
      by_cases hk : k0 = k
      · simp [alGet, hk] at h
      · simp only [alGet, hk] at h
        simp only [List.cons_append, alGet, if_neg hk]
        exact ih h

theorem bars_foldlM_append (rows : List String) (kbs acc : List (Int × Bar))
    (hmap : rows.mapM parseBarRow = some kbs)
    (hnd : (kbs.map Prod.fst).Nodup)
    (hfresh : ∀ k ∈ kbs.map Prod.fst, alGet acc k = none) :
    rows.foldlM
        (fun frame r => (parseBarRow r).map (fun kb => alSet frame kb.1 kb.2))
        acc = some (acc ++ kbs) := by
  induction rows generalizing kbs acc with
  | nil =>
      simp only [List.mapM_nil, pure, Option.some.injEq] at hmap
      subst hmap
      simp
  | cons r rest ih =>
      rw [List.mapM_cons] at hmap
      cases hr : parseBarRow r with
      | none => rw [hr] at hmap; simp at hmap
      | some kb =>
          rw [hr] at hmap
          cases hrest : rest.mapM parseBarRow with
          | none => rw [hrest] at hmap; simp at hmap
          | some kbs' =>
              rw [hrest] at hmap
              simp at hmap
              subst hmap
              have hk1 : alGet acc kb.1 = none :=
                hfresh kb.1 (by simp)
              have hset : alSet acc kb.1 kb.2 = acc ++ [kb] := by
                rw [alSet_of_absent acc kb.1 kb.2 hk1]
              have hnd' : (kbs'.map Prod.fst).Nodup := by
                simpa using hnd.of_cons
              have hnotmem : kb.1 ∉ kbs'.map Prod.fst := by
                intro hmem
                exact (List.nodup_cons.mp (by simpa using hnd)).1 hmem
              have hfresh' : ∀ k ∈ kbs'.map Prod.fst,
                  alGet (acc ++ [kb]) k = none := by
                intro k hkmem
                rw [alGet_append_of_none acc [kb] k
                  (hfresh k (by simp [hkmem]))]
                have : kb.1 ≠ k := fun he => hnotmem (he ▸ hkmem)
                simp [alGet, this]
              rw [List.foldlM_cons, hr]
              simp [hset, ih kbs' (acc ++ [kb]) hrest hnd' hfresh']

/-- Claim C6 (amended): each vendor CSV bar row maps by the fixed column rule
— split on commas, replace literal `null` fields with `0`, timestamp from
column 0, open from column 1, close from column 2, high from column 3, low
from column 4, volume from column 6, vwap from column 7 — to one OHLCV
record, and when the rows' timestamps are pairwise distinct the returned
frame is exactly that record list in reverse (oldest-first) row order; rows
sharing a timestamp however collapse into a single record, because the frame
is keyed by timestamp (pandas `df.loc[ts] = rec` overwrites the row with
that label). -/
theorem get_bars_row_mapping (rows : List String) (kbs : List (Int × Bar)) :
    (∀ rowStr row ts,
        row = (splitComma rowStr).map (fun v => if v = "null" then "0" else v) →
        (h7 : 7 < row.length) → parsePyInt row[0] = some ts →
        parseBarRow rowStr
          = some (ts, ⟨row[1], row[2], row[3], row[4], row[6], row[7]⟩)) ∧
    (rows.mapM parseBarRow = some kbs → (kbs.map Prod.fst).Nodup →
        get_bars_frame rows = some kbs.reverse) := by
  constructor
  · intro rowStr row ts hrow h7 hts
    simp only [parseBarRow, ← hrow]
    rw [dif_pos h7, hts]
  · intro hmap hnd
    unfold get_bars_frame
    rw [bars_foldlM_append rows kbs [] hmap hnd (fun k _ => rfl)]
    simp

/-- Witness for claim C6 at two concrete rows with distinct timestamps 2 and
1: both rows are converted by the column mapping (including a `null` volume
becoming `0`) and the frame comes back reversed. -/
theorem get_bars_row_mapping_witness :
    get_bars_frame ["2,o2,c2,h2,l2,x2,null,w2", "1,o1,c1,h1,l1,x1,v1,w1"]
      = some [(1, ⟨"o1", "c1", "h1", "l1", "v1", "w1"⟩),
              (2, ⟨"o2", "c2", "h2", "l2", "0", "w2"⟩)] := by
  have h := (get_bars_row_mapping
      ["2,o2,c2,h2,l2,x2,null,w2", "1,o1,c1,h1,l1,x1,v1,w1"]
      [(2, ⟨"o2", "c2", "h2", "l2", "0", "w2"⟩),
       (1, ⟨"o1", "c1", "h1", "l1", "v1", "w1"⟩)]).2
  exact h rfl (by decide)

/-- Claim C6 counterexample: two vendor rows sharing timestamp 1 produce a
one-row frame holding the second row's values — not two records in reversed
row order — because `df.loc[timestamp] = data` (webull.py line 1119)
overwrites the existing row with that timestamp label. -/
theorem get_bars_duplicate_timestamp :
    get_bars_frame ["1,o1,c1,h1,l1,x1,v1,w1", "1,o2,c2,h2,l2,x2,v2,w2"]
      = some [(1, ⟨"o2", "c2", "h2", "l2", "v2", "w2"⟩)] ∧
    (get_bars_frame ["1,o1,c1,h1,l1,x1,v1,w1", "1,o2,c2,h2,l2,x2,v2,w2"]).map
        List.length = some 1 := by
  exact ⟨rfl, rfl⟩

end Webull

namespace Webull

theorem sessionEq_refl (a : ClientState) : sessionEq a a :=
  ⟨rfl, rfl, rfl, rfl, rfl, rfl⟩

theorem sessionEq_trans (a b c : ClientState)
    (h1 : sessionEq a b) (h2 : sessionEq b c) : sessionEq a c := by
  obtain ⟨x1, x2, x3, x4, x5, x6⟩ := h1
  obtain ⟨y1, y2, y3, y4, y5, y6⟩ := h2
  exact ⟨x1.trans y1, x2.trans y2, x3.trans y3, x4.trans y4,
    x5.trans y5, x6.trans y6⟩

theorem get_ticker_fst (st : ClientState) (stock : String)
    (resp : Option (List TickerItem)) :
    (get_ticker st stock resp).1 = (build_req_headers st).1 := by
  unfold get_ticker
  split
  · rfl
  · split <;> rfl

theorem place_order_data_fields (t : Int) (price : Rat)
    (action orderType enforce : String) (quant : Int) (orth : Bool)
    (stp : Option Rat) (tv : Rat) (tt sid : String) (data : Payload)
    (h : place_order_data t price action orderType enforce quant orth stp
        tv tt sid = .ok data) :
    (orderType = "MKT" →
        alGet data "outsideRegularTradingHour" = some (.b false) ∧
        alGet data "lmtPrice" = none ∧ alGet data "auxPrice" = none) ∧
    (orderType = "LMT" →
        alGet data "lmtPrice" = some (.q price) ∧
        alGet data "auxPrice" = none) ∧
    (orderType = "STP" → ∃ sp, stp = some sp ∧
        alGet data "auxPrice" = some (.q sp) ∧
        alGet data "lmtPrice" = none) ∧
    (orderType = "STP LMT" → ∃ sp, stp = some sp ∧
        alGet data "lmtPrice" = some (.q price) ∧
        alGet data "auxPrice" = some (.q sp)) ∧
    (orderType = "STP TRAIL" →
        alGet data "trailingStopStep" = some (.q tv) ∧
        alGet data "trailingType" = some (.s tt) ∧
        alGet data "lmtPrice" = none ∧ alGet data "auxPrice" = none) := by
  refine ⟨?_, ?_, ?_, ?_, ?_⟩
  · intro hT
    subst hT
    unfold place_order_data at h
    simp at h
    subst h
    simp [alSet, alGet]
  · intro hT
    subst hT
    unfold place_order_data at h
    simp at h
    subst h
    simp [alSet, alGet]
  · intro hT
    subst hT
    unfold place_order_data at h
    simp at h
    cases stp with
    | none => simp at h
    | some sp =>
        simp at h
        subst h
        exact ⟨sp, rfl, by simp [alSet, alGet]⟩
  · intro hT
    subst hT
    unfold place_order_data at h
    simp at h
    cases stp with
    | none => simp at h
    | some sp =>
        simp at h
        subst h
        exact ⟨sp, rfl, by simp [alSet, alGet]⟩
  · intro hT
    subst hT
    unfold place_order_data at h
    simp at h
    subst h
    simp [alSet, alGet]

end Webull

namespace Webull

/-- Claim C7: `place_order` builds the order payload with price fields
conditional on order type — `LMT` carries `lmtPrice` and no `auxPrice`,
`STP` carries `auxPrice` and no `lmtPrice`, `STP LMT` carries both,
`STP TRAIL` carries `trailingStopStep` and `trailingType`, and `MKT`
carries neither price field with `outsideRegularTradingHour` forced to
False regardless of the argument — and no field of the constructed order
request is persisted in the client's session state. -/
theorem place_order_conditional_pricing (st : ClientState)
    (stock : Option String) (tId : Option Int) (price : Rat)
    (action orderType enforce : String) (quant : Int) (orth : Bool)
    (stp : Option Rat) (tv : Rat) (tt : String)
    (resp : Option (List TickerItem)) (now sid : String) :
    sessionEq (place_order st stock tId price action orderType enforce quant
        orth stp tv tt resp now sid).1 st ∧
    (∀ data, (place_order st stock tId price action orderType enforce quant
        orth stp tv tt resp now sid).2.2 = .ok data →
      (orderType = "MKT" →
          alGet data "outsideRegularTradingHour" = some (.b false) ∧
          alGet data "lmtPrice" = none ∧ alGet data "auxPrice" = none) ∧
      (orderType = "LMT" →
          alGet data "lmtPrice" = some (.q price) ∧
          alGet data "auxPrice" = none) ∧
      (orderType = "STP" → ∃ sp, stp = some sp ∧
          alGet data "auxPrice" = some (.q sp) ∧
          alGet data "lmtPrice" = none) ∧
      (orderType = "STP LMT" → ∃ sp, stp = some sp ∧
          alGet data "lmtPrice" = some (.q price) ∧
          alGet data "auxPrice" = some (.q sp)) ∧
      (orderType = "STP TRAIL" →
          alGet data "trailingStopStep" = some (.q tv) ∧
          alGet data "trailingType" = some (.s tt) ∧
          alGet data "lmtPrice" = none ∧ alGet data "auxPrice" = none)) := by
  constructor
  · rcases tId with _ | t
    · rcases stock with _ | s
      · simp only [place_order]
        exact sessionEq_refl st
      · simp only [place_order]
        rcases hg : get_ticker st s resp with ⟨st1, reqs, res⟩
        have hst1 : sessionEq st1 st := by
          have h1 : (get_ticker st s resp).1 = st1 := by rw [hg]
          have h3 : st1 = (build_req_headers st).1 := by
            rw [← h1, get_ticker_fst st s resp]
          rw [h3]
          exact build_req_headers_session st false false true ""
        rcases res with e | t
        · exact hst1
        · dsimp only
          rcases hd : place_order_data t price action orderType enforce quant
            orth stp tv tt sid with e | d <;>
          exact sessionEq_trans _ _ _
            (build_req_headers_session st1 true true true now) hst1
    · simp only [place_order]
      rcases hd : place_order_data t price action orderType enforce quant
          orth stp tv tt sid with e | d <;>
      exact build_req_headers_session st true true true now
  · intro data hok
    rcases tId with _ | t
    · rcases stock with _ | s
      · simp only [place_order] at hok
        simp at hok
      · simp only [place_order] at hok
        rcases hg : get_ticker st s resp with ⟨st1, reqs, res⟩
        rw [hg] at hok
        rcases res with e | t
        · simp at hok
        · dsimp only at hok
          rcases hd : place_order_data t price action orderType enforce quant
              orth stp tv tt sid with e | d
          · rw [hd] at hok
            simp at hok
          · rw [hd] at hok
            simp at hok
            subst hok
            exact place_order_data_fields t price action orderType enforce
              quant orth stp tv tt sid d hd
    · simp only [place_order] at hok
      rcases hd : place_order_data t price action orderType enforce quant
          orth stp tv tt sid with e | d
      · rw [hd] at hok
        simp at hok
      · rw [hd] at hok
        simp at hok
        subst hok
        exact place_order_data_fields t price action orderType enforce
          quant orth stp tv tt sid d hd

/-- Witness for claim C7 at a concrete MKT order: the payload keeps no price
field and `outsideRegularTradingHour` comes back False although True was
passed. -/
theorem place_order_conditional_pricing_witness :
    alGet [("action", JVal.s "BUY"), ("comboType", JVal.s "NORMAL"),
        ("orderType", JVal.s "MKT"),
        ("outsideRegularTradingHour", JVal.b false),
        ("quantity", JVal.i 2), ("serialId", JVal.s "sid"),
        ("tickerId", JVal.i 5), ("timeInForce", JVal.s "GTC")]
      "outsideRegularTradingHour" = some (JVal.b false) := by
  have h := (place_order_conditional_pricing (initState "d") none (some 5)
      0 "BUY" "MKT" "GTC" 2 true none 0 "DOLLAR" none "t" "sid").2
  exact (h [("action", JVal.s "BUY"), ("comboType", JVal.s "NORMAL"),
      ("orderType", JVal.s "MKT"),
      ("outsideRegularTradingHour", JVal.b false),
      ("quantity", JVal.i 2), ("serialId", JVal.s "sid"),
      ("tickerId", JVal.i 5), ("timeInForce", JVal.s "GTC")] rfl).1 rfl |>.1

theorem paper_positions_fold (positions : List PositionItem)
    (acc : List (String × PositionItem))
    (hnd : (positions.map PositionItem.tickerSymbol).Nodup)
    (hfresh : ∀ s ∈ positions.map PositionItem.tickerSymbol,
        alGet acc s = none) :
    positions.foldl (fun acc item => alSet acc item.tickerSymbol item) acc
      = acc ++ positions.map (fun p => (p.tickerSymbol, p)) := by
  induction positions generalizing acc with
  | nil => simp
  | cons p rest ih =>
      simp only [List.foldl_cons]
      rw [alSet_of_absent _ _ _ (hfresh p.tickerSymbol (by simp))]
      have hnd' : (rest.map PositionItem.tickerSymbol).Nodup := by
        simpa using hnd.of_cons
      have hnotmem : p.tickerSymbol ∉ rest.map PositionItem.tickerSymbol :=
        (List.nodup_cons.mp (by simpa using hnd)).1
      have hfresh' : ∀ s ∈ rest.map PositionItem.tickerSymbol,
          alGet (acc ++ [(p.tickerSymbol, p)]) s = none := by
        intro s hs
        rw [alGet_append_of_none _ _ _ (hfresh s (by simp [hs]))]
        have hne : p.tickerSymbol ≠ s := fun he => hnotmem (he ▸ hs)
        simp [alGet, hne]
      rw [ih (acc ++ [(p.tickerSymbol, p)]) hnd' hfresh']
      simp

/-- Claim C8 (amended): `PaperWebull` reuses the client shape only in part:
its overrides target the parallel sandbox endpoints, but
`get_history_orders` defaults the status filter to `'Cancelled'` where the
base client defaults to `'All'`, and `get_positions` returns a dict keyed by
ticker symbol built from the positions list — the same items re-keyed when
symbols are distinct — instead of the raw list the base client returns. -/
theorem paper_variant_relation (st : ClientState) (status : String)
    (count : Nat) (positions : List PositionItem) :
    get_history_orders_url st status count
      = orders_url st.accountId count ++ status ∧
    paper_get_history_orders_url st status count
      = paper_orders_url st.accountId count ++ status ∧
    get_history_orders_url st = orders_url st.accountId 20 ++ "All" ∧
    paper_get_history_orders_url st
      = paper_orders_url st.accountId 20 ++ "Cancelled" ∧
    ((positions.map PositionItem.tickerSymbol).Nodup →
        paper_get_positions positions
          = (get_positions positions).map (fun p => (p.tickerSymbol, p))) := by
  refine ⟨rfl, rfl, rfl, rfl, ?_⟩
  intro hnd
  unfold paper_get_positions get_positions
  rw [paper_positions_fold positions [] hnd (fun s _ => rfl)]
  simp

/-- Witness for claim C8 at a concrete positions list with distinct symbols:
the paper dict is the base list re-keyed by symbol. -/
theorem paper_variant_relation_witness :
    paper_get_positions [⟨"AAPL", "p1"⟩, ⟨"TSLA", "p2"⟩]
      = [("AAPL", ⟨"AAPL", "p1"⟩), ("TSLA", ⟨"TSLA", "p2"⟩)] := by
  have h := (paper_variant_relation (initState "d") "All" 20
      [⟨"AAPL", "p1"⟩, ⟨"TSLA", "p2"⟩]).2.2.2.2
  exact h (by decide)

/-- Claim C8 counterexample: with the arguments left at their defaults the
base client requests status `'All'` while the paper override requests status
`'Cancelled'` (different parameter defaults), and on a positions list with a
repeated symbol the base client returns 2 items while the paper override's
symbol-keyed dict holds 1 (different return shape). -/
theorem paper_variant_counterexample :
    get_history_orders_url { initState "d" with accountId := "A1" }
      = orders_url "A1" 20 ++ "All" ∧
    paper_get_history_orders_url { initState "d" with accountId := "A1" }
      = paper_orders_url "A1" 20 ++ "Cancelled" ∧
    ("Cancelled" : String) ≠ "All" ∧
    (get_positions [⟨"AAPL", "p1"⟩, ⟨"AAPL", "p2"⟩]).length = 2 ∧
    (paper_get_positions [⟨"AAPL", "p1"⟩, ⟨"AAPL", "p2"⟩]).length = 1 := by
  refine ⟨rfl, rfl, by decide, rfl, rfl⟩

/-- Claim C10: a `modify_order` call that supplies a non-zero `order_id` but
leaves `order=None` and `action=None` passes the
'Must provide an order or order_id' validation, then raises TypeError at
`order['action']` (webull.py line 517) before any HTTP request is issued:
the request list is empty and the error is the None-subscript TypeError,
not the validation ValueError. -/
theorem modify_order_none_order_typeerror (st : ClientState)
    (order_id : Int) (h : order_id ≠ 0) (stock : Option String)
    (tId : Option Int) (price : Rat) (orderType enforce : Option String)
    (quant : Int) (orth : Option Bool) (resp : Option (List TickerItem))
    (now sid : String) :
    (modify_order st none order_id stock tId price none orderType enforce
        quant orth resp now sid).2.1 = [] ∧
    (modify_order st none order_id stock tId price none orderType enforce
        quant orth resp now sid).2.2
      = .error "TypeError: NoneType object is not subscriptable" := by
  unfold modify_order
  rw [if_neg (by simp [orderFalsy, h])]
  exact ⟨rfl, rfl⟩

/-- Witness for claim C10 at a concrete call: order_id 5, everything else at
its default, no order dict — no request goes out and the call dies with the
None-subscript TypeError. -/
theorem modify_order_none_order_typeerror_witness :
    (modify_order (initState "d") none 5 none none 0 none none none 0 none
        none "" "").2.2
      = .error "TypeError: NoneType object is not subscriptable" :=
  (modify_order_none_order_typeerror (initState "d") 5 (by decide) none none
    0 none none 0 none none "" "").2

end Webull
